import Mathlib

/-!
Verification development for the serial-listener process supervisor
(`serial_listener.py`).

The Python module is embedded shallowly:

* The operating-system facts the supervisor touches are collected in
  `World`: the contents of the pid marker file `uvicorn.pid` (if it
  exists), the set of currently live process ids (`os.kill(pid, 0)`
  succeeds exactly for those, and signal delivery succeeds exactly for
  those), whether `subprocess.Popen` would succeed, and the pid the next
  spawned child would receive.
* `is_server_running`, `start_server` and `stop_server` are direct
  translations of the functions of the same names; each returns its
  Python return value together with the updated `World`.
* The body of `main`'s `while True:` loop, from a decoded line onwards,
  is `processLine` (commands and dispatch) and `measStep` (the debounce
  update and the start/stop policy, lines 277-303 of the source).
  `runLines` folds `processLine` over a list of input lines.
* Python floats are modelled as exact rationals (`ℚ`); the regex-based
  value extraction of lines 250-264 is `extractVal`, working on the
  character list of the line.

Each emitted `Action` records one externally visible dispatch of the
loop body, so that theorems can count start/stop attempts.
-/

namespace SerialListener

/-- Python `str.strip()` on a character list: drop whitespace from both
ends. -/
def trimChars (cs : List Char) : List Char :=
  ((cs.dropWhile Char.isWhitespace).reverse.dropWhile Char.isWhitespace).reverse

/-- Python `str.upper()` (ASCII inputs): uppercase every character. -/
def upperChars (cs : List Char) : List Char :=
  cs.map Char.toUpper

/-- Numeric value of a decimal digit character. -/
def digitVal (c : Char) : Nat :=
  c.toNat - '0'.toNat

/-- Value of a list of decimal digit characters. -/
def digitsToNat (ds : List Char) : Nat :=
  ds.foldl (fun a c => 10 * a + digitVal c) 0

/-- Python `int(s.strip())` as used on the marker file content: succeeds
exactly on (possibly whitespace-padded) non-empty decimal numerals, the
form `start_server` writes; any other content raises, which the callers
catch. -/
def parsePid (s : String) : Option Nat :=
  let t := trimChars s.data
  if !t.isEmpty && t.all Char.isDigit then some (digitsToNat t) else none

/-- The facts about the operating system that the supervisor functions
consult and update.

* `marker`: content of the pid file `uvicorn.pid`, `none` when the file
  does not exist.
* `alive`: the pids for which `os.kill(pid, sig)` succeeds (liveness
  probe with signal `0`, and delivery of `SIGTERM`/`SIGKILL`).
* `nextPid`: the pid `subprocess.Popen` would assign to a new child.
* `spawnOk`: whether `subprocess.Popen` succeeds (false models a spawn
  failure such as a missing executable, which `start_server` catches). -/
structure World where
  marker : Option String
  alive : List Nat
  nextPid : Nat
  spawnOk : Bool
deriving DecidableEq, Repr

/-- `os.kill(pid, 0)` succeeds, i.e. the pid names a live process. -/
def pidAlive (w : World) (pid : Nat) : Bool :=
  w.alive.contains pid

/-- `is_server_running` (source lines 70-83): if the pid file exists,
read it, parse the pid and probe it with `os.kill(pid, 0)`; on success
return `True`.  Any exception (unparsable content, dead pid) falls into
the handler that removes the pid file and returns `False`. -/
def is_server_running (w : World) : Bool × World :=
  match w.marker with
  | none => (false, w)
  | some content =>
    match parsePid content with
    | some pid =>
      if pidAlive w pid then (true, w)
      else (false, { w with marker := none })
    | none => (false, { w with marker := none })

/-- `start_server` (source lines 86-103): no-op returning `None` when
`is_server_running()`; otherwise `Popen` a detached child, write its pid
to the pid file and return the pid, or return `None` when the spawn
raises. -/
def start_server (w : World) : Option Nat × World :=
  let r := is_server_running w
  if r.1 then (none, r.2)
  else if r.2.spawnOk then
    (some r.2.nextPid,
     { r.2 with
        alive := r.2.nextPid :: r.2.alive
        nextPid := r.2.nextPid + 1
        marker := some (toString r.2.nextPid) })
  else (none, r.2)

/-- `stop_server` (source lines 106-133): return `False` when no pid
file exists.  Otherwise read and parse the pid (an unparsable content
raises into the outer handler, returning `False` with the file kept),
send `SIGTERM`, falling back to `SIGKILL`; when both raise (in this
model: exactly when the pid is dead) return `False` with the pid file
kept, and only after a delivered signal remove the pid file and return
`True`. -/
def stop_server (w : World) : Bool × World :=
  match w.marker with
  | none => (false, w)
  | some content =>
    match parsePid content with
    | none => (false, w)
    | some pid =>
      if pidAlive w pid then (true, { w with marker := none })
      else (false, w)

/-- Python `\w` on the ASCII inputs the listener sees: letters, digits
and underscore. -/
def isWordChar (c : Char) : Bool :=
  c.isAlphanum || c == '_'

/-- A character matched by the `[:\s]` class of the BAC regex. -/
def isSepChar (c : Char) : Bool :=
  c == ':' || c.isWhitespace

/-- Split a character list into its maximal leading run of decimal
digits and the rest. -/
def takeDigits : List Char → List Char × List Char
  | [] => ([], [])
  | c :: cs =>
    if c.isDigit then
      let p := takeDigits cs
      (c :: p.1, p.2)
    else ([], c :: cs)

/-- Match the pattern `[0-9]*\.?[0-9]+` at the head of the list, with
the backtracking Python's `re` performs: prefer digits, a dot and more
digits; a trailing dot with no digits after it is given back, and a
match must contain at least one digit.  Returns the matched numeral. -/
def matchNumeral (cs : List Char) : Option (List Char) :=
  let p := takeDigits cs
  match p.2 with
  | '.' :: r2 =>
    let q := takeDigits r2
    if !q.1.isEmpty then some (p.1 ++ '.' :: q.1)
    else if !p.1.isEmpty then some p.1 else none
  | _ => if !p.1.isEmpty then some p.1 else none

/-- Word-boundary test for the position left of a candidate `BAC`:
start of line, or a preceding non-word character. -/
def boundaryOk : Option Char → Bool
  | none => true
  | some p => !isWordChar p

/-- Try to match `BAC\b[:\s]*([0-9]*\.?[0-9]+)` (case-insensitive)
starting exactly at the head of the list; the `\b` before `BAC` is the
caller's responsibility.  Returns the captured numeral. -/
def bacHere (cs : List Char) : Option (List Char) :=
  match cs with
  | c1 :: c2 :: c3 :: rest =>
    if c1.toUpper == 'B' && c2.toUpper == 'A' && c3.toUpper == 'C'
        && (match rest with | [] => true | r :: _ => !isWordChar r) then
      matchNumeral (rest.dropWhile isSepChar)
    else none
  | _ => none

/-- `re.search` for `\bBAC\b[:\s]*([0-9]*\.?[0-9]+)` (IGNORECASE):
leftmost position where the whole pattern matches, scanning with the
previous character carried for the word-boundary test. -/
def bacSearch : Option Char → List Char → Option (List Char)
  | _, [] => none
  | prev, c :: rest =>
    match (if boundaryOk prev then bacHere (c :: rest) else none) with
    | some num => some num
    | none => bacSearch (some c) rest

/-- `re.search` for the fallback pattern `([0-9]*\.?[0-9]+)`: leftmost
position where a numeral matches. -/
def numSearch : List Char → Option (List Char)
  | [] => none
  | c :: cs =>
    match matchNumeral (c :: cs) with
    | some num => some num
    | none => numSearch cs

/-- Python `float()` of a matched numeral, as the exact rational the
decimal numeral denotes (the model idealises binary floating point by
exact rational arithmetic). -/
def numeralToRat (num : List Char) : ℚ :=
  let p := takeDigits num
  match p.2 with
  | '.' :: fp => mkRat (digitsToNat p.1 * 10 ^ fp.length + digitsToNat fp) (10 ^ fp.length)
  | _ => mkRat (digitsToNat p.1) 1

/-- Source lines 250-264: extract a numeric reading from a line, first
looking for a `BAC`-labelled number, then for any standalone number. -/
def extractVal (line : List Char) : Option ℚ :=
  match bacSearch none line with
  | some num => some (numeralToRat num)
  | none =>
    match numSearch line with
    | some num => some (numeralToRat num)
    | none => none

/-- Source lines 266-274: values above 1.0 are treated as percentages
and divided by 100, except that values above 100.0 are kept as-is. -/
def normalizeVal (v : ℚ) : ℚ :=
  if v > 1 then (if v > 100 then v else v / 100) else v

/-- One entry of the calibration JSON dict: absent key, present but
non-numeric value (`float()` raises), or a numeric value. -/
inductive CalEntry where
  | absent
  | nonNumeric
  | value (q : ℚ)
deriving DecidableEq, Repr

/-- The loaded calibration dict; `none` models a missing, unreadable or
non-dict (falsy) calibration. -/
structure CalData where
  scale : CalEntry
  offset : CalEntry
deriving DecidableEq, Repr

/-- `calibration.get(key, default)` followed by `float(...)`: `none`
when the conversion raises. -/
def calEntryVal : CalEntry → ℚ → Option ℚ
  | CalEntry.absent, d => some d
  | CalEntry.nonNumeric, _ => none
  | CalEntry.value q, _ => some q

/-- `calibrated_bac_from_analog` (source lines 202-212): with a dict
calibration whose `scale`/`offset` convert to floats, return
`analog_val * scale + offset`; on a conversion error or no dict, the
legacy default mapping `analog_val * (0.5 / 1023.0)`. -/
def calibrated_bac_from_analog (cal : Option CalData) (analog_val : ℚ) : ℚ :=
  match cal with
  | some c =>
    match calEntryVal c.scale ((0.5 : ℚ) / 1023), calEntryVal c.offset 0 with
    | some scale, some offset => analog_val * scale + offset
    | _, _ => analog_val * ((0.5 : ℚ) / 1023)
  | none => analog_val * ((0.5 : ℚ) / 1023)

/-- The command-line configuration consumed by the loop body (`args`),
plus the calibration loaded at startup. -/
structure Config where
  no_auto_start : Bool
  bac_threshold : ℚ
  auto_stop : Bool
  consecutive : Nat
  consecutive_stop : Nat
  calibration : Option CalData
deriving Repr

/-- The mutable state of `main`'s loop: the outside world plus the
`started_by_bac` flag and the two debounce counters. -/
structure LoopState where
  world : World
  started_by_bac : Bool
  above_count : Nat
  below_count : Nat
deriving DecidableEq, Repr

/-- One externally visible dispatch of the loop body. -/
inductive Action where
  | explicitStart
  | noAutoStartStart
  | explicitStop
  | policyStart
  | noAutoStartPolicy
  | alreadyRunningNote
  | autoStop
  | unrecognizedNote
deriving DecidableEq, Repr

/-- Python truthiness of the `Optional[int]` returned by
`start_server` (`if p:`). -/
def pidTruthy : Option Nat → Bool
  | none => false
  | some n => n != 0

/-- Source lines 277-282: the consecutive-reading debounce update on a
parsed (and already normalized) value. -/
def debounceCounts (cfg : Config) (s : LoopState) (v : ℚ) : LoopState :=
  if v ≥ cfg.bac_threshold then
    { s with above_count := s.above_count + 1, below_count := 0 }
  else
    { s with above_count := 0, below_count := s.below_count + 1 }

/-- Source lines 286-296: once enough consecutive readings are above
the threshold, start the server unless it is already running or
`--no-auto-start` was given; a truthy returned pid marks the run as
policy-started. -/
def startPolicy (cfg : Config) (s : LoopState) : LoopState × List Action :=
  if s.above_count ≥ cfg.consecutive then
    let r := is_server_running s.world
    if r.1 = false then
      if cfg.no_auto_start then
        ({ s with world := r.2 }, [Action.noAutoStartPolicy])
      else
        let pr := start_server r.2
        ({ s with
            world := pr.2
            started_by_bac := if pidTruthy pr.1 then true else s.started_by_bac },
         [Action.policyStart])
    else
      ({ s with world := r.2 }, [Action.alreadyRunningNote])
  else (s, [])

/-- Source lines 298-302: with `--auto-stop`, a policy-started server
is stopped after enough consecutive readings below the threshold. -/
def stopPolicy (cfg : Config) (s : LoopState) : LoopState × List Action :=
  if cfg.auto_stop && s.started_by_bac && decide (s.below_count ≥ cfg.consecutive_stop) then
    let r2 := is_server_running s.world
    if r2.1 then
      let q := stop_server r2.2
      ({ s with world := q.2, started_by_bac := false }, [Action.autoStop])
    else
      ({ s with world := r2.2 }, [])
  else (s, [])

/-- Source lines 277-303 in order: debounce update, then the start
policy (which reads the just-updated `above_count`), then the stop
policy (which reads the just-updated `below_count` and the possibly
just-set `started_by_bac`). -/
def measStep (cfg : Config) (s : LoopState) (v : ℚ) : LoopState × List Action :=
  let s1 := debounceCounts cfg s v
  let r1 := startPolicy cfg s1
  let r2 := stopPolicy cfg r1.1
  (r2.1, r1.2 ++ r2.2)

/-- The body of `main`'s loop on one decoded input line (source lines
227-306): strip, skip empty lines, handle the explicit `START`/`STOP`
commands, otherwise extract a value, normalize it and run `measStep`;
lines with no value are unrecognized. -/
def processLine (cfg : Config) (s : LoopState) (input : String) : LoopState × List Action :=
  let line := trimChars input.data
  if line.isEmpty then (s, [])
  else
    let cmd := trimChars line
    if upperChars cmd == "START".data then
      if cfg.no_auto_start then (s, [Action.noAutoStartStart])
      else
        let r := start_server s.world
        ({ s with world := r.2, started_by_bac := false }, [Action.explicitStart])
    else if upperChars cmd == "STOP".data then
      let r := stop_server s.world
      ({ s with world := r.2, started_by_bac := false }, [Action.explicitStop])
    else
      match extractVal line with
      | some v0 => measStep cfg s (normalizeVal v0)
      | none => (s, [Action.unrecognizedNote])

/-- Fold `processLine` over a list of input lines, collecting the
actions. -/
def runLines (cfg : Config) (s : LoopState) : List String → LoopState × List Action
  | [] => (s, [])
  | l :: ls =>
    let r := processLine cfg s l
    let rest := runLines cfg r.1 ls
    (rest.1, r.2 ++ rest.2)

/-- Modelled from the spec (the pipeline claim C2 describes, not the
source): the same loop body, except that the measurement handed to the
debounce update is first passed through the Calibration Mapper
`calibrated_bac_from_analog`. -/
def processLine_speccal (cfg : Config) (s : LoopState) (input : String) : LoopState × List Action :=
  let line := trimChars input.data
  if line.isEmpty then (s, [])
  else
    let cmd := trimChars line
    if upperChars cmd == "START".data then
      if cfg.no_auto_start then (s, [Action.noAutoStartStart])
      else
        let r := start_server s.world
        ({ s with world := r.2, started_by_bac := false }, [Action.explicitStart])
    else if upperChars cmd == "STOP".data then
      let r := stop_server s.world
      ({ s with world := r.2, started_by_bac := false }, [Action.explicitStop])
    else
      match extractVal line with
      | some v0 => measStep cfg s (calibrated_bac_from_analog cfg.calibration (normalizeVal v0))
      | none => (s, [Action.unrecognizedNote])

/-- A world whose marker file records a pid that is not alive: the
crash-recovery situation. -/
def deadMarkerWorld : World :=
  { marker := some "7", alive := [], nextPid := 1, spawnOk := true }

/-- A world with a marker recording the live pid 5. -/
def runningWorld : World :=
  { marker := some "5", alive := [5], nextPid := 6, spawnOk := true }

/-- The default configuration: threshold 0.08, three consecutive
readings, no auto-stop, auto-start enabled, no calibration loaded. -/
def defaultCfg : Config :=
  { no_auto_start := false
    bac_threshold := mkRat 8 100
    auto_stop := false
    consecutive := 3
    consecutive_stop := 3
    calibration := none }

/-- The default configuration with `--auto-stop`. -/
def autoStopCfg : Config :=
  { defaultCfg with auto_stop := true }

/-- A fresh world: no marker file, no live pids, spawning works and the
next child would get pid 101. -/
def freshWorld : World :=
  { marker := none, alive := [], nextPid := 101, spawnOk := true }

/-- The loop state at startup over a fresh world. -/
def initState : LoopState :=
  { world := freshWorld, started_by_bac := false, above_count := 0, below_count := 0 }

/-- A loop state over `runningWorld` in which the server was started by
the debounce policy and two below-threshold readings have been seen. -/
def policyRunState : LoopState :=
  { world := runningWorld, started_by_bac := true, above_count := 0, below_count := 2 }

/-- A loop state over `runningWorld` with the policy flag set and idle
counters. -/
def runningFlagState : LoopState :=
  { world := runningWorld, started_by_bac := true, above_count := 0, below_count := 0 }

/-- A loop state over a fresh world with a partial above-streak. -/
def twoAboveState : LoopState :=
  { world := freshWorld, started_by_bac := true, above_count := 2, below_count := 0 }

lemma is_server_running_true_world (w : World)
    (h : (is_server_running w).1 = true) : is_server_running w = (true, w) := by
  cases hm : w.marker with
  | none => simp [is_server_running, hm] at h
  | some c =>
    cases hp : parsePid c with
    | none => simp [is_server_running, hm, hp] at h
    | some pid =>
      by_cases ha : pidAlive w pid
      · simp [is_server_running, hm, hp, ha]
      · simp [is_server_running, hm, hp, ha] at h

/-- C4: `is_server_running` returns true iff the marker file exists and
its recorded pid names a currently live process; whenever the marker
exists but the recorded pid is dead, the call removes the marker and
returns false.  Being a pure function of the world, this self-healing
check happens on every call. -/
theorem is_server_running_spec (w : World) :
    ((is_server_running w).1 = true ↔
      ∃ c pid, w.marker = some c ∧ parsePid c = some pid ∧ pidAlive w pid = true) ∧
    (∀ c pid, w.marker = some c → parsePid c = some pid → pidAlive w pid = false →
      is_server_running w = (false, { w with marker := none })) := by
  constructor
  · constructor
    · intro h
      cases hm : w.marker with
      | none => simp [is_server_running, hm] at h
      | some c =>
        cases hp : parsePid c with
        | none => simp [is_server_running, hm, hp] at h
        | some pid =>
          by_cases ha : pidAlive w pid
          · exact ⟨c, pid, rfl, hp, by simpa using ha⟩
          · simp [is_server_running, hm, hp, ha] at h
    · rintro ⟨c, pid, hm, hp, ha⟩
      simp [is_server_running, hm, hp, ha]
  · intro c pid hm hp ha
    simp [is_server_running, hm, hp, ha]

/-- Witness for `is_server_running_spec` at a marker recording the dead
pid 42: the call reports false and deletes the marker. -/
theorem is_server_running_spec_witness :
    is_server_running { marker := some "42", alive := [], nextPid := 1, spawnOk := true } =
      (false, { marker := none, alive := [], nextPid := 1, spawnOk := true }) :=
  (is_server_running_spec _).2 "42" 42 rfl (by decide) (by decide)

/-- C10: a marker whose content does not parse as an integer pid is
treated like a dead pid: `is_server_running` returns false and deletes
the marker, so a corrupted marker never reports the server as running. -/
theorem is_server_running_corrupt_marker (w : World) (c : String)
    (hm : w.marker = some c) (hp : parsePid c = none) :
    is_server_running w = (false, { w with marker := none }) := by
  simp [is_server_running, hm, hp]

/-- Witness for `is_server_running_corrupt_marker` at the unparsable
marker content `"abc"`. -/
theorem is_server_running_corrupt_marker_witness :
    is_server_running { marker := some "abc", alive := [3], nextPid := 1, spawnOk := true } =
      (false, { marker := none, alive := [3], nextPid := 1, spawnOk := true }) :=
  is_server_running_corrupt_marker _ "abc" rfl (by decide)

/-- C5: `start_server` on a running supervisor is a no-op: it spawns
nothing, leaves the marker (and hence its recorded pid) unchanged, and
returns `None` rather than a new pid. -/
theorem start_server_noop_when_running (w : World)
    (h : (is_server_running w).1 = true) : start_server w = (none, w) := by
  have h2 := is_server_running_true_world w h
  simp [start_server, h2]

/-- Witness for `start_server_noop_when_running` at `runningWorld`. -/
theorem start_server_noop_when_running_witness :
    (is_server_running runningWorld).1 = true ∧
    start_server runningWorld = (none, runningWorld) :=
  ⟨by decide, start_server_noop_when_running runningWorld (by decide)⟩

/-- Counterexample to C1: at `deadMarkerWorld` the marker file is
present, yet `stop_server` returns false and keeps the marker (both
kill attempts on the dead pid raise, and the removal is only reached
after a delivered signal), contradicting the claim that the marker is
always deleted and true returned whenever the marker was present. -/
theorem stop_server_dead_pid_cex :
    deadMarkerWorld.marker = some "7" ∧
    stop_server deadMarkerWorld = (false, deadMarkerWorld) := by decide

/-- C1 as amended: `stop_server` is a no-op returning false without a
marker; with a marker it returns true and deletes the marker exactly
when the recorded pid parses and a termination signal can be delivered
to it; when the content does not parse, or the pid is dead so that both
signal attempts fail, it returns false and leaves the marker in place. -/
theorem stop_server_spec (w : World) :
    (w.marker = none → stop_server w = (false, w)) ∧
    (∀ c, w.marker = some c → parsePid c = none → stop_server w = (false, w)) ∧
    (∀ c pid, w.marker = some c → parsePid c = some pid → pidAlive w pid = false →
      stop_server w = (false, w)) ∧
    (∀ c pid, w.marker = some c → parsePid c = some pid → pidAlive w pid = true →
      stop_server w = (true, { w with marker := none })) := by
  refine ⟨?_, ?_, ?_, ?_⟩ <;> intros <;> simp [stop_server, *]

/-- Witness for `stop_server_spec`: a delivered signal deletes the
marker and yields true; a dead pid yields false and keeps the marker. -/
theorem stop_server_spec_witness :
    stop_server runningWorld = (true, { marker := none, alive := [5], nextPid := 6, spawnOk := true }) ∧
    stop_server deadMarkerWorld = (false, deadMarkerWorld) :=
  ⟨(stop_server_spec runningWorld).2.2.2 "5" 5 rfl (by decide) (by decide),
   (stop_server_spec deadMarkerWorld).2.2.1 "7" 7 rfl (by decide) (by decide)⟩

lemma debounceCounts_spec (cfg : Config) (s : LoopState) (v : ℚ) :
    (debounceCounts cfg s v).world = s.world ∧
    (debounceCounts cfg s v).started_by_bac = s.started_by_bac ∧
    (debounceCounts cfg s v).above_count
        = (if v ≥ cfg.bac_threshold then s.above_count + 1 else 0) ∧
    (debounceCounts cfg s v).below_count
        = (if v ≥ cfg.bac_threshold then 0 else s.below_count + 1) := by
  unfold debounceCounts
  split_ifs <;> simp

lemma startPolicy_counts (cfg : Config) (s : LoopState) :
    (startPolicy cfg s).1.above_count = s.above_count ∧
    (startPolicy cfg s).1.below_count = s.below_count := by
  unfold startPolicy
  by_cases h1 : s.above_count ≥ cfg.consecutive
  · by_cases h2 : (is_server_running s.world).1 = false
    · by_cases h3 : cfg.no_auto_start
      · simp [h1, h2, h3]
      · simp [h1, h2, h3]
    · simp [h1, h2]
  · simp [h1]

lemma stopPolicy_counts (cfg : Config) (s : LoopState) :
    (stopPolicy cfg s).1.above_count = s.above_count ∧
    (stopPolicy cfg s).1.below_count = s.below_count := by
  unfold stopPolicy
  by_cases h1 : (cfg.auto_stop && s.started_by_bac && decide (s.below_count ≥ cfg.consecutive_stop)) = true
  · by_cases h2 : (is_server_running s.world).1 = true
    · simp [h1, h2]
    · simp [h1, h2]
  · simp [h1]

lemma measStep_counts (cfg : Config) (s : LoopState) (v : ℚ) :
    (measStep cfg s v).1.above_count
        = (if v ≥ cfg.bac_threshold then s.above_count + 1 else 0) ∧
    (measStep cfg s v).1.below_count
        = (if v ≥ cfg.bac_threshold then 0 else s.below_count + 1) := by
  have h1 := debounceCounts_spec cfg s v
  have h2 := startPolicy_counts cfg (debounceCounts cfg s v)
  have h3 := stopPolicy_counts cfg (startPolicy cfg (debounceCounts cfg s v)).1
  unfold measStep
  constructor
  · rw [h3.1, h2.1, h1.2.2.1]
  · rw [h3.2, h2.2, h1.2.2.2]

lemma measStep_one_zero (cfg : Config) (s : LoopState) (v : ℚ) :
    (measStep cfg s v).1.above_count = 0 ∨ (measStep cfg s v).1.below_count = 0 := by
  rcases measStep_counts cfg s v with ⟨h1, h2⟩
  by_cases hth : v ≥ cfg.bac_threshold
  · right; rw [h2, if_pos hth]
  · left; rw [h1, if_neg hth]

lemma startPolicy_acts (cfg : Config) (s : LoopState) :
    (Action.policyStart ∈ (startPolicy cfg s).2 ↔
      (s.above_count ≥ cfg.consecutive ∧ (is_server_running s.world).1 = false ∧
        cfg.no_auto_start = false)) ∧
    Action.explicitStop ∉ (startPolicy cfg s).2 ∧
    Action.autoStop ∉ (startPolicy cfg s).2 := by
  unfold startPolicy
  by_cases h1 : s.above_count ≥ cfg.consecutive
  · by_cases h2 : (is_server_running s.world).1 = false
    · by_cases h3 : cfg.no_auto_start
      · simp [h1, h2, h3]
      · simp [h1, h2, h3]
    · simp [h1, h2]
  · simp [h1]

lemma stopPolicy_acts (cfg : Config) (s : LoopState) :
    (Action.autoStop ∈ (stopPolicy cfg s).2 →
      (stopPolicy cfg s).1.started_by_bac = false ∧
      s.below_count ≥ cfg.consecutive_stop) ∧
    Action.policyStart ∉ (stopPolicy cfg s).2 ∧
    Action.explicitStop ∉ (stopPolicy cfg s).2 := by
  unfold stopPolicy
  by_cases h1 : (cfg.auto_stop && s.started_by_bac && decide (s.below_count ≥ cfg.consecutive_stop)) = true
  · have hge : s.below_count ≥ cfg.consecutive_stop := by
      have h := h1
      simp only [Bool.and_eq_true, decide_eq_true_eq] at h
      exact h.2
    have hparts := h1
    simp only [Bool.and_eq_true, decide_eq_true_eq] at hparts
    obtain ⟨⟨hauto, hflag⟩, hcnt⟩ := hparts
    by_cases h2 : (is_server_running s.world).1 = true
    · simp [h1, h2, hauto, hflag, hge]
    · simp [h1, h2, hauto, hflag, hge]
  · simp [h1]

lemma measStep_policyStart_iff (cfg : Config) (s : LoopState) (v : ℚ) :
    Action.policyStart ∈ (measStep cfg s v).2 ↔
      ((if v ≥ cfg.bac_threshold then s.above_count + 1 else 0) ≥ cfg.consecutive ∧
       (is_server_running s.world).1 = false ∧ cfg.no_auto_start = false) := by
  rcases debounceCounts_spec cfg s v with ⟨hw, _, ha, _⟩
  have hsp := (startPolicy_acts cfg (debounceCounts cfg s v)).1
  have hns := (stopPolicy_acts cfg (startPolicy cfg (debounceCounts cfg s v)).1).2.1
  rw [ha, hw] at hsp
  simp only [measStep, List.mem_append]
  constructor
  · rintro (h | h)
    · exact hsp.mp h
    · exact absurd h hns
  · intro h
    exact Or.inl (hsp.mpr h)

lemma measStep_stop_acts (cfg : Config) (s : LoopState) (v : ℚ) :
    Action.explicitStop ∉ (measStep cfg s v).2 ∧
    (Action.autoStop ∈ (measStep cfg s v).2 →
      (measStep cfg s v).1.started_by_bac = false ∧
      (measStep cfg s v).1.below_count ≥ cfg.consecutive_stop) := by
  have hsp := startPolicy_acts cfg (debounceCounts cfg s v)
  have hst := stopPolicy_acts cfg (startPolicy cfg (debounceCounts cfg s v)).1
  have hcounts := stopPolicy_counts cfg (startPolicy cfg (debounceCounts cfg s v)).1
  constructor
  · simp only [measStep, List.mem_append]
    rintro (h | h)
    · exact hsp.2.1 h
    · exact hst.2.2 h
  · simp only [measStep, List.mem_append]
    rintro (h | h)
    · exact absurd h hsp.2.2
    · have h2 := hst.1 h
      refine ⟨h2.1, ?_⟩
      rw [hcounts.2]
      exact h2.2

/-- C7: normalization of an extracted raw value is the identity on
[0, 1], division by 100 on (1, 100], and the identity again above 100. -/
theorem normalizeVal_rule (v : ℚ) :
    (0 ≤ v → v ≤ 1 → normalizeVal v = v) ∧
    (1 < v → v ≤ 100 → normalizeVal v = v / 100) ∧
    (100 < v → normalizeVal v = v) := by
  refine ⟨fun _ h2 => ?_, fun h1 h2 => ?_, fun h => ?_⟩
  · simp [normalizeVal, not_lt.mpr h2]
  · simp [normalizeVal, h1, not_lt.mpr h2]
  · have h1 : (1 : ℚ) < v := by linarith
    simp [normalizeVal, h1, h]

/-- Witness for `normalizeVal_rule` at 0.5, 8.2 (the spec example:
8.2 becomes 0.082) and 200. -/
theorem normalizeVal_rule_witness :
    normalizeVal (1 / 2) = 1 / 2 ∧
    normalizeVal (41 / 5) = (41 / 5) / 100 ∧
    normalizeVal 200 = 200 :=
  ⟨(normalizeVal_rule _).1 (by norm_num) (by norm_num),
   (normalizeVal_rule _).2.1 (by norm_num) (by norm_num),
   (normalizeVal_rule _).2.2 (by norm_num)⟩

/-- C8: the debounce update keeps at most one of the two counters
non-zero: processing any line from a state in which one counter is zero
yields a state in which one counter is zero (a measurement sets the
counters to `(old + 1, 0)` or `(0, old + 1)`; every other line keeps
them unchanged), so from the all-zero start state the invariant holds
forever. -/
theorem debounce_at_most_one_counter (cfg : Config) (s : LoopState) (input : String)
    (h : s.above_count = 0 ∨ s.below_count = 0) :
    (processLine cfg s input).1.above_count = 0 ∨
    (processLine cfg s input).1.below_count = 0 := by
  simp only [processLine]
  split
  · exact h
  · split
    · split
      · exact h
      · exact h
    · split
      · exact h
      · split
        · exact measStep_one_zero cfg s _
        · exact h

/-- Witness for `debounce_at_most_one_counter`: one above-threshold
reading from the all-zero start state. -/
theorem debounce_at_most_one_counter_witness :
    (processLine defaultCfg initState "BAC:0.09").1.above_count = 0 ∨
    (processLine defaultCfg initState "BAC:0.09").1.below_count = 0 :=
  debounce_at_most_one_counter defaultCfg initState "BAC:0.09" (Or.inl rfl)

/-- C6: on a measurement, a start is attempted exactly when the updated
above-counter has reached `consecutive`, the supervisor reports not
running, and `--no-auto-start` is absent; the attempt does not reset the
above-counter; and the three-line scenario `BAC:0.09` (three times) at
threshold 0.08 with `consecutive = 3` over a fresh world produces
exactly one start action. -/
theorem start_intent_spec (cfg : Config) (s : LoopState) (v : ℚ) :
    (Action.policyStart ∈ (measStep cfg s v).2 ↔
      ((if v ≥ cfg.bac_threshold then s.above_count + 1 else 0) ≥ cfg.consecutive ∧
       (is_server_running s.world).1 = false ∧ cfg.no_auto_start = false)) ∧
    (measStep cfg s v).1.above_count
        = (if v ≥ cfg.bac_threshold then s.above_count + 1 else 0) ∧
    (runLines defaultCfg initState ["BAC:0.09", "BAC:0.09", "BAC:0.09"]).2.count
        Action.policyStart = 1 :=
  ⟨measStep_policyStart_iff cfg s v, (measStep_counts cfg s v).1, by decide⟩

/-- Counterexample to C3: after the trace `BAC:0.09` then `STOP`, the
loop has processed an explicit STOP, yet `above_count` is still 1, not
0 — the code clears only `started_by_bac` on STOP and never resets the
debounce counters. -/
theorem explicit_stop_keeps_counts_cex :
    (runLines defaultCfg initState ["BAC:0.09", "STOP"]).2.count Action.explicitStop = 1 ∧
    (runLines defaultCfg initState ["BAC:0.09", "STOP"]).1.above_count = 1 := by decide

/-- C3 as amended: an explicit STOP resets `started_by_bac` to false
and leaves both debounce counters unchanged; a debounce-policy
auto-stop resets `started_by_bac` to false and leaves the just-updated
`below_count`, which is at least `consecutive_stop` (so not the claimed
0 whenever `consecutive_stop` is positive). -/
theorem stop_paths_reset_flag_only (cfg : Config) (s : LoopState) (input : String) :
    (Action.explicitStop ∈ (processLine cfg s input).2 →
      (processLine cfg s input).1.started_by_bac = false ∧
      (processLine cfg s input).1.above_count = s.above_count ∧
      (processLine cfg s input).1.below_count = s.below_count) ∧
    (Action.autoStop ∈ (processLine cfg s input).2 →
      (processLine cfg s input).1.started_by_bac = false ∧
      (processLine cfg s input).1.below_count ≥ cfg.consecutive_stop) := by
  simp only [processLine]
  split
  · simp
  · split
    · split
      · simp
      · simp
    · split
      · exact ⟨fun _ => ⟨rfl, rfl, rfl⟩, by simp⟩
      · split
        · exact ⟨fun h => absurd h (measStep_stop_acts cfg s _).1,
                 (measStep_stop_acts cfg s _).2⟩
        · simp

/-- Witness for `stop_paths_reset_flag_only`: an explicit STOP at a
state with a live above-streak, and an auto-stop fired by the third
below-threshold reading in a policy-started run. -/
theorem stop_paths_reset_flag_only_witness :
    ((processLine defaultCfg twoAboveState "STOP").1.started_by_bac = false ∧
     (processLine defaultCfg twoAboveState "STOP").1.above_count = twoAboveState.above_count ∧
     (processLine defaultCfg twoAboveState "STOP").1.below_count = twoAboveState.below_count) ∧
    ((processLine autoStopCfg policyRunState "BAC:0.01").1.started_by_bac = false ∧
     (processLine autoStopCfg policyRunState "BAC:0.01").1.below_count ≥ autoStopCfg.consecutive_stop) :=
  ⟨(stop_paths_reset_flag_only defaultCfg twoAboveState "STOP").1 (by decide),
   (stop_paths_reset_flag_only autoStopCfg policyRunState "BAC:0.01").2 (by decide)⟩

/-- C9: an explicit START with `--no-auto-start` absent always runs
`start_server` and then sets `started_by_bac` to false, also when the
server was already running and nothing was spawned; a policy-started
server therefore stops being eligible for auto-stop after any explicit
START. -/
theorem explicit_start_clears_policy_flag (cfg : Config) (s : LoopState) (input : String)
    (hs : upperChars (trimChars (trimChars input.data)) = "START".data)
    (hn : cfg.no_auto_start = false) :
    (processLine cfg s input).1.started_by_bac = false ∧
    (processLine cfg s input).1.world = (start_server s.world).2 ∧
    (processLine cfg s input).2 = [Action.explicitStart] := by
  have hne : (trimChars input.data).isEmpty = false := by
    cases he : trimChars input.data with
    | nil => rw [he] at hs; exact absurd hs (by decide)
    | cons a t => rfl
  simp [processLine, hne, hs, hn]

/-- Witness for `explicit_start_clears_policy_flag`: a lowercase
`start` line while the server is already running and the policy flag is
set; the flag is cleared although `start_server` spawns nothing. -/
theorem explicit_start_clears_policy_flag_witness :
    (processLine defaultCfg runningFlagState "start").1.started_by_bac = false ∧
    (processLine defaultCfg runningFlagState "start").1.world
        = (start_server runningFlagState.world).2 ∧
    (processLine defaultCfg runningFlagState "start").2 = [Action.explicitStart] :=
  explicit_start_clears_policy_flag defaultCfg runningFlagState "start" (by decide) rfl

/-- Counterexample to C2: on the line `BAC:0.09` over a fresh world with
no calibration loaded, the loop counts the reading as above the 0.08
threshold (`above_count` becomes 1), while the pipeline the claim
describes — the calibration mapper applied before the debounce update —
would classify it below threshold (`below_count` becomes 1), since the
default mapping sends 0.09 to 0.09 * 0.5/1023 < 0.08.  The loop
therefore does not apply the calibration mapper before debouncing. -/
theorem measurement_skips_calibration_cex :
    (processLine defaultCfg initState "BAC:0.09").1.above_count = 1 ∧
    (processLine defaultCfg initState "BAC:0.09").1.below_count = 0 ∧
    (processLine_speccal defaultCfg initState "BAC:0.09").1.above_count = 0 ∧
    (processLine_speccal defaultCfg initState "BAC:0.09").1.below_count = 1 := by
  have hv : processLine_speccal defaultCfg initState "BAC:0.09"
      = measStep defaultCfg initState
          (calibrated_bac_from_analog none (normalizeVal (mkRat 9 100))) := rfl
  have hlt : ¬ (calibrated_bac_from_analog none (normalizeVal (mkRat 9 100))
      ≥ defaultCfg.bac_threshold) := by
    norm_num [calibrated_bac_from_analog, normalizeVal, defaultCfg, Rat.mkRat_eq_div]
  refine ⟨by decide, by decide, ?_, ?_⟩
  · rw [hv, (measStep_counts _ _ _).1, if_neg hlt]
  · rw [hv, (measStep_counts _ _ _).2, if_neg hlt]
    rfl

/-- C2 as amended: the stream loop never invokes the calibration
mapper: its behaviour on every input line is independent of the loaded
calibration, the debounce update receiving the normalized extracted
value directly. -/
theorem processLine_independent_of_calibration (cfg : Config) (cal : Option CalData)
    (s : LoopState) (input : String) :
    processLine { cfg with calibration := cal } s input = processLine cfg s input := by
  cases cfg
  rfl

end SerialListener
